/-
Verification of the AR engine core (`src/ar/AREngineSimple.js`).

The engine is embedded shallowly:

* JavaScript numbers that can come back from the optical-flow primitive are
  modelled by `JSNum` — a finite rational, `+∞`, `-∞`, or `NaN` — with the
  IEEE-754 propagation rules for the operations the engine performs on them
  (`-`, `*`, `+`, and the comparison `Math.sqrt v < 50`).  Coordinates that
  the engine itself stores are always finite and are modelled as `ℚ`.
* Each method of the `AREngineSimple` class becomes a pure function from the
  engine state (and the per-frame input) to the new state plus the returned
  value.  External collaborators (the corner detector `cv.goodFeaturesToTrack`
  and the optical flow `cv.calcOpticalFlowPyrLK`) are oracles supplied as part
  of the per-frame input.
-/
import Mathlib

namespace AREngine

/-! ## JavaScript number model

Only the values and operations that `trackPoints` applies to the raw output of
`cv.calcOpticalFlowPyrLK` are needed: subtraction, multiplication, addition,
`isNaN`, and the comparison `Math.sqrt v < 50`. -/

inductive JSNum where
  | fin (q : ℚ)
  | posInf
  | negInf
  | nan
deriving DecidableEq, Repr

namespace JSNum

def isNaN : JSNum → Bool
  | nan => true
  | _ => false

/-- JavaScript subtraction `a - b` (IEEE-754 double, exact values kept in `ℚ`). -/
def sub : JSNum → JSNum → JSNum
  | nan, _ => nan
  | fin _, nan => nan
  | posInf, nan => nan
  | negInf, nan => nan
  | fin a, fin b => fin (a - b)
  | fin _, posInf => negInf
  | fin _, negInf => posInf
  | posInf, fin _ => posInf
  | negInf, fin _ => negInf
  | posInf, posInf => nan
  | posInf, negInf => posInf
  | negInf, posInf => negInf
  | negInf, negInf => nan

/-- JavaScript addition `a + b`. -/
def add : JSNum → JSNum → JSNum
  | nan, _ => nan
  | fin _, nan => nan
  | posInf, nan => nan
  | negInf, nan => nan
  | fin a, fin b => fin (a + b)
  | fin _, posInf => posInf
  | fin _, negInf => negInf
  | posInf, fin _ => posInf
  | negInf, fin _ => negInf
  | posInf, posInf => posInf
  | posInf, negInf => nan
  | negInf, posInf => nan
  | negInf, negInf => negInf

/-- JavaScript multiplication `a * b`. -/
def mul : JSNum → JSNum → JSNum
  | nan, _ => nan
  | fin _, nan => nan
  | posInf, nan => nan
  | negInf, nan => nan
  | fin a, fin b => fin (a * b)
  | fin a, posInf => if 0 < a then posInf else if a < 0 then negInf else nan
  | fin a, negInf => if 0 < a then negInf else if a < 0 then posInf else nan
  | posInf, fin b => if 0 < b then posInf else if b < 0 then negInf else nan
  | negInf, fin b => if 0 < b then negInf else if b < 0 then posInf else nan
  | posInf, posInf => posInf
  | posInf, negInf => negInf
  | negInf, posInf => negInf
  | negInf, negInf => posInf

/-- The comparison `Math.sqrt v < 50` as JavaScript evaluates it:
`sqrt NaN = NaN`, `sqrt (+∞) = +∞` and `sqrt x = NaN` for `x < 0`, and any
comparison against `NaN` is false; for finite `0 ≤ v`, `sqrt v < 50 ↔ v < 2500`
since `sqrt` is strictly monotone and `50² = 2500`. -/
def sqrtLtFifty : JSNum → Bool
  | nan => false
  | posInf => false
  | negInf => false
  | fin q => decide (0 ≤ q) && decide (q < 2500)

end JSNum

/-! ## Data model -/

/-- One row of the optical-flow output as `trackPoints` reads it:
`status.data[i]` (validity flag) and the four coordinates
`prevPoints.data32F[2i]`, `prevPoints.data32F[2i+1]`,
`nextPoints.data32F[2i]`, `nextPoints.data32F[2i+1]`. -/
structure FlowPoint where
  status : Bool
  prevX : JSNum
  prevY : JSNum
  nextX : JSNum
  nextY : JSNum
deriving DecidableEq, Repr

/-- A correspondence: one element of `this.trackedPoints`
(`{prev: {x, y}, curr: {x, y}}`).  Coordinates stored by the engine are
always finite, hence `ℚ`. -/
structure Corr where
  prevX : ℚ
  prevY : ℚ
  currX : ℚ
  currY : ℚ
deriving DecidableEq, Repr

/-- `this.groundPlane` — `{center, confidence, motion}`. -/
structure Plane where
  centerX : ℚ
  centerY : ℚ
  confidence : ℚ
  motionDX : ℚ
  motionDY : ℚ
deriving DecidableEq, Repr

/-- `this.imuData` — `{alpha, beta, gamma}`. -/
structure Imu where
  alpha : ℚ
  beta : ℚ
  gamma : ℚ
deriving DecidableEq, Repr

/-- `this.currentPose`.  The source stores the rotation angles converted to
radians (`beta * Math.PI / 180`, etc.); the factor `π / 180` is irrational, so
the rotation is kept here in degrees, before that fixed positive scaling.  No
claim depends on the rotation values. -/
structure Pose where
  posX : ℚ
  posY : ℚ
  posZ : ℚ
  rotXDeg : ℚ
  rotYDeg : ℚ
  rotZDeg : ℚ
  planeCenterX : ℚ
  planeCenterY : ℚ
  confidence : ℚ
deriving DecidableEq, Repr

/-! ## Reference configuration (`this.settings` in the constructor) -/

def minFeatures : ℕ := 15
def featureRefreshInterval : ℕ := 15

/-! ## Motion tracker (`trackPoints`) — the per-point filter -/

/-- The retention test applied to each optical-flow row in `trackPoints`:
`status.data[i] === 1`, then `if (isNaN(prevX) || isNaN(nextX)) continue`,
then `dist = Math.sqrt(dx*dx + dy*dy)` and keep when `dist < 50`. -/
def keepPoint (p : FlowPoint) : Bool :=
  p.status &&
  !(p.prevX.isNaN || p.nextX.isNaN) &&
  (let dx := p.nextX.sub p.prevX
   let dy := p.nextY.sub p.prevY
   JSNum.sqrtLtFifty ((dx.mul dx).add (dy.mul dy)))

/-- Extract the rational value of a `JSNum` known to be finite (used only on
coordinates that passed `keepPoint`, which forces all four to be finite). -/
def JSNum.toRat : JSNum → ℚ
  | .fin q => q
  | _ => 0

/-- The rows `trackPoints` retains, in order. -/
def trackPointsKept (rows : List FlowPoint) : List FlowPoint :=
  rows.filter keepPoint

/-- The feature `{x: nextX, y: nextY}` pushed onto `this.goodFeatures`. -/
def featOf (p : FlowPoint) : ℚ × ℚ :=
  (p.nextX.toRat, p.nextY.toRat)

/-- The correspondence pushed onto `this.trackedPoints`. -/
def corrOf (p : FlowPoint) : Corr :=
  ⟨p.prevX.toRat, p.prevY.toRat, p.nextX.toRat, p.nextY.toRat⟩

/-- `this.goodFeatures` after `trackPoints`. -/
def goodFeaturesOf (rows : List FlowPoint) : List (ℚ × ℚ) :=
  (trackPointsKept rows).map featOf

/-- `this.trackedPoints` after `trackPoints`. -/
def trackedPointsOf (rows : List FlowPoint) : List Corr :=
  (trackPointsKept rows).map corrOf

/-! ## Plane hypothesis estimator (`estimatePlane`) -/

/-- `totalDX` accumulated over `this.trackedPoints`. -/
def totalDX (tracked : List Corr) : ℚ :=
  (tracked.map (fun c => c.currX - c.prevX)).sum

/-- `totalDY` accumulated over `this.trackedPoints`. -/
def totalDY (tracked : List Corr) : ℚ :=
  (tracked.map (fun c => c.currY - c.prevY)).sum

def avgDX (tracked : List Corr) : ℚ := totalDX tracked / tracked.length

def avgDY (tracked : List Corr) : ℚ := totalDY tracked / tracked.length

/-- `motionVariance`: the population variance of the per-point displacement
around the mean displacement, `Σ (dx-avgDX)² + (dy-avgDY)²` divided by the
number of correspondences. -/
def motionVariance (tracked : List Corr) : ℚ :=
  (tracked.map (fun c =>
      let dx := (c.currX - c.prevX) - avgDX tracked
      let dy := (c.currY - c.prevY) - avgDY tracked
      dx * dx + dy * dy)).sum / tracked.length

/-- The centroid of `this.goodFeatures` (`centerX`, `centerY` in the source). -/
def centroidX (good : List (ℚ × ℚ)) : ℚ :=
  (good.map Prod.fst).sum / good.length

def centroidY (good : List (ℚ × ℚ)) : ℚ :=
  (good.map Prod.snd).sum / good.length

/-- Result of one `estimatePlane` call: the returned boolean together with the
updated `this.planeConfidence` and `this.groundPlane`. -/
structure PlaneStep where
  found : Bool
  conf : ℚ
  plane : Option Plane
deriving DecidableEq, Repr

/-- `estimatePlane`, as a function of `this.trackedPoints`,
`this.goodFeatures`, `this.planeConfidence` and `this.groundPlane`. -/
def estimatePlane (tracked : List Corr) (good : List (ℚ × ℚ))
    (conf : ℚ) (gp : Option Plane) : PlaneStep :=
  if tracked.length < 8 then
    ⟨false, max 0 (conf - 1/10), gp⟩
  else if motionVariance tracked < 100 then
    ⟨decide (min 1 (conf + 15/100) > 1/2), min 1 (conf + 15/100),
      some ⟨centroidX good, centroidY good, min 1 (conf + 15/100),
            avgDX tracked, avgDY tracked⟩⟩
  else
    ⟨false, max 0 (conf - 1/10), gp⟩

/-! ## Pose estimator (`estimatePose`) -/

/-- `estimatePose`: returns early when `this.groundPlane` is null, otherwise
overwrites `this.currentPose`.  Translation scales the aggregate motion by
`0.001` and fixes depth at `3.0`; rotation angles are kept in degrees (see
`Pose`). -/
def estimatePose (gp : Option Plane) (imu : Imu) (old : Option Pose) :
    Option Pose :=
  match gp with
  | none => old
  | some g =>
      some ⟨-g.motionDX * (1/1000), g.motionDY * (1/1000), 3,
            imu.beta, imu.gamma, imu.alpha,
            g.centerX, g.centerY, g.confidence⟩

/-! ## Engine state and per-frame processing (`processFrame`) -/

/-- The persistent fields of `AREngineSimple` that the tracking pipeline reads
or writes.  `prevGrayRows` is `this.prevGrayFrame.rows` (0 when no previous
grayscale frame is stored). -/
structure EngineState where
  initialized : Bool
  isTracking : Bool
  frameCount : ℕ
  prevGrayRows : ℕ
  prevPoints : List (ℚ × ℚ)
  trackedPoints : List Corr
  goodFeatures : List (ℚ × ℚ)
  groundPlane : Option Plane
  planeConfidence : ℚ
  currentPose : Option Pose
  imu : Imu
deriving DecidableEq, Repr

/-- The record returned by `processFrame`. -/
structure FrameResult where
  isTracking : Bool
  hasFeatures : Bool
  featureCount : ℕ
  planeCount : ℕ
  pose : Option Pose
  imu : Imu
deriving DecidableEq, Repr

/-- One row of the optical-flow oracle output: the validity flag and the
predicted next position for a given previous point. -/
structure FlowRes where
  status : Bool
  nextX : JSNum
  nextY : JSNum

/-- Per-frame input: the video frame dimensions plus the two external vision
primitives as oracles — `detect` is what `cv.goodFeaturesToTrack` returns on
the current grayscale frame, and `flow` is what `cv.calcOpticalFlowPyrLK`
returns for a given previous point set (one row per input point). -/
structure FrameInput where
  width : ℕ
  height : ℕ
  detect : List (ℚ × ℚ)
  flow : List (ℚ × ℚ) → List FlowRes

/-- Which internal steps a `processFrame` call actually invoked. -/
structure FrameTrace where
  ranDetect : Bool
  ranTrack : Bool
deriving DecidableEq, Repr

structure FrameOutput where
  state : EngineState
  result : FrameResult
  trace : FrameTrace

/-- Pair one previous point with its optical-flow row, as `trackPoints` reads
them out of `prevPoints.data32F` / `nextPoints.data32F` / `status.data`. -/
def mkFlowPoint (p : ℚ × ℚ) (r : FlowRes) : FlowPoint :=
  ⟨r.status, .fin p.1, .fin p.2, r.nextX, r.nextY⟩

/-- `processFrame`.  The early returns (engine not initialized, zero video
dimensions), the frame-counter increment, the refresh decision, the tracking
branch with its nested plane/pose steps, the fallback branch, and the final
`grayFrame.copyTo(prevGrayFrame)` / `this.isTracking = result.isTracking`
mirror the source's control flow. -/
def processFrame (s : EngineState) (inp : FrameInput) : FrameOutput :=
  let res0 : FrameResult := ⟨false, false, 0, 0, none, s.imu⟩
  if s.initialized = false then ⟨s, res0, ⟨false, false⟩⟩
  else if inp.width = 0 ∨ inp.height = 0 then ⟨s, res0, ⟨false, false⟩⟩
  else
    let fc := s.frameCount + 1
    let needsFeatures := decide (s.prevPoints.length < minFeatures)
    let refreshNow := decide (fc % featureRefreshInterval = 0)
    let doDetect := needsFeatures || refreshNow
    let pts := if doDetect then inp.detect else s.prevPoints
    if 0 < s.prevGrayRows ∧ minFeatures ≤ pts.length then
      let rows := (pts.zip (inp.flow pts)).map fun pr => mkFlowPoint pr.1 pr.2
      let good := goodFeaturesOf rows
      let tracked := trackedPointsOf rows
      let featureCount := good.length
      if minFeatures ≤ featureCount then
        let ep := estimatePlane tracked good s.planeConfidence s.groundPlane
        if ep.found then
          let pose := estimatePose ep.plane s.imu s.currentPose
          ⟨{ s with
              isTracking := true
              frameCount := fc
              prevGrayRows := inp.height
              prevPoints := good
              trackedPoints := tracked
              goodFeatures := good
              groundPlane := ep.plane
              planeConfidence := ep.conf
              currentPose := pose },
           ⟨true, true, featureCount, 1, pose, s.imu⟩,
           ⟨doDetect, true⟩⟩
        else
          ⟨{ s with
              isTracking := false
              frameCount := fc
              prevGrayRows := inp.height
              prevPoints := good
              trackedPoints := tracked
              goodFeatures := good
              groundPlane := ep.plane
              planeConfidence := ep.conf },
           ⟨false, true, featureCount, 0, none, s.imu⟩,
           ⟨doDetect, true⟩⟩
      else
        ⟨{ s with
            isTracking := false
            frameCount := fc
            prevGrayRows := inp.height
            prevPoints := good
            trackedPoints := tracked
            goodFeatures := good },
         ⟨false, false, featureCount, 0, none, s.imu⟩,
         ⟨doDetect, true⟩⟩
    else
      ⟨{ s with
          isTracking := false
          frameCount := fc
          prevGrayRows := inp.height
          prevPoints := pts },
       ⟨false, decide (0 < pts.length), pts.length, 0, none, s.imu⟩,
       ⟨doDetect, false⟩⟩

/-! ## Reset (`reset`) -/

/-- `reset`: clears the tracking state and empties the point and previous-frame
buffers; the IMU sample, the `initialized` flag and the settings are kept. -/
def reset (s : EngineState) : EngineState :=
  { s with
      isTracking := false
      trackedPoints := []
      goodFeatures := []
      currentPose := none
      groundPlane := none
      planeConfidence := 0
      frameCount := 0
      prevPoints := []
      prevGrayRows := 0 }

/-! ## Concrete inputs used by the witness and counterexample theorems -/

/-- Eight correspondences with zero displacement (coherent: variance `0`). -/
def coherent8 : List Corr := List.replicate 8 ⟨0, 0, 0, 0⟩

/-- A one-element feature list with centroid `(2, 4)`. -/
def goodOne : List (ℚ × ℚ) := [(2, 4)]

/-! ## Theorems -/

/-- The retention test of `trackPoints` holds exactly on rows whose validity
flag is set, whose four coordinates are all finite, and whose displacement is
less than 50 pixels (equivalently, squared displacement less than 2500).  A
`NaN` x-coordinate fails the explicit `isNaN` guard; any other non-finite
coordinate makes the computed distance `NaN` or `+∞`, and the comparison
`Math.sqrt dist < 50` then evaluates to false. -/
theorem keepPoint_eq_true_iff (p : FlowPoint) :
    keepPoint p = true ↔
      p.status = true ∧
        ∃ px py nx ny : ℚ,
          p.prevX = JSNum.fin px ∧ p.prevY = JSNum.fin py ∧
          p.nextX = JSNum.fin nx ∧ p.nextY = JSNum.fin ny ∧
          (nx - px) * (nx - px) + (ny - py) * (ny - py) < 2500 := by
  obtain ⟨st, px, py, nx, ny⟩ := p
  cases px <;> cases py <;> cases nx <;> cases ny <;>
    simp [keepPoint, JSNum.isNaN, JSNum.sub, JSNum.mul, JSNum.add,
      JSNum.sqrtLtFifty]
  intros
  exact add_nonneg (mul_self_nonneg _) (mul_self_nonneg _)

/-- Justification of the squared-distance form of `JSNum.sqrtLtFifty`: on the
nonnegative finite values it is applied to (sums of two squares), the
JavaScript comparison `Math.sqrt v < 50` agrees with `v < 2500`, because the
real square root is strictly monotone and `50² = 2500`. -/
theorem sqrtLtFifty_fin_iff (q : ℚ) (hq : 0 ≤ q) :
    JSNum.sqrtLtFifty (JSNum.fin q) = true ↔ Real.sqrt (q : ℝ) < 50 := by
  rw [Real.sqrt_lt' (by norm_num : (0 : ℝ) < 50)]
  simp only [JSNum.sqrtLtFifty, Bool.and_eq_true, decide_eq_true_eq]
  have h2500 : ((50 : ℝ) ^ 2) = ((2500 : ℚ) : ℝ) := by norm_num
  rw [h2500]
  constructor
  · rintro ⟨-, h⟩
    exact_mod_cast h
  · intro h
    exact ⟨hq, by exact_mod_cast h⟩

/-- Claim C5: A row of the optical-flow output is retained by `trackPoints` —
and hence contributes its feature to `goodFeaturesOf` and its correspondence
to `trackedPointsOf`, both of which are projections of `trackPointsKept` —
exactly when its validity flag is set, all four coordinates (x and y, previous
and current) are finite, and the displacement magnitude is below the outlier
bound of 50 pixels; in particular every row whose displacement reaches or
exceeds the bound, or has any non-finite coordinate, is excluded from both
output lists. -/
theorem trackPoints_retention (rows : List FlowPoint) (p : FlowPoint) :
    p ∈ trackPointsKept rows ↔
      p ∈ rows ∧ p.status = true ∧
        ∃ px py nx ny : ℚ,
          p.prevX = JSNum.fin px ∧ p.prevY = JSNum.fin py ∧
          p.nextX = JSNum.fin nx ∧ p.nextY = JSNum.fin ny ∧
          (nx - px) * (nx - px) + (ny - py) * (ny - py) < 2500 := by
  rw [trackPointsKept, List.mem_filter, keepPoint_eq_true_iff]

/-- Claim C1: For every sequence of confidence updates performed by the plane
hypothesis estimator, after any single update (increment on a coherent frame,
decrement on an incoherent or insufficient-data frame) the confidence value
lies in the closed interval `[0, 1]`: starting from a confidence in `[0, 1]`
(as the initial value `0` is), one `estimatePlane` step can never leave the
interval, so no number of consecutive increments or decrements can. -/
theorem estimatePlane_conf_mem_unit
    (tracked : List Corr) (good : List (ℚ × ℚ)) (conf : ℚ) (gp : Option Plane)
    (h0 : 0 ≤ conf) (h1 : conf ≤ 1) :
    0 ≤ (estimatePlane tracked good conf gp).conf ∧
      (estimatePlane tracked good conf gp).conf ≤ 1 := by
  unfold estimatePlane
  split
  · exact ⟨le_max_left 0 _, max_le (by norm_num) (by linarith)⟩
  · split
    · exact ⟨le_min (by norm_num) (by linarith), min_le_left 1 _⟩
    · exact ⟨le_max_left 0 _, max_le (by norm_num) (by linarith)⟩

/-- Witness for C1 at `tracked = coherent8`, `good = goodOne`, `conf = 1/2`. -/
theorem estimatePlane_conf_mem_unit_witness :
    0 ≤ (estimatePlane coherent8 goodOne (1/2) none).conf ∧
      (estimatePlane coherent8 goodOne (1/2) none).conf ≤ 1 :=
  estimatePlane_conf_mem_unit coherent8 goodOne (1/2) none
    (by norm_num) (by norm_num)

/-- Claim C3: For every frame with fewer than 8 correspondences, `estimatePlane`
reports no plane, sets the confidence to `max 0 (conf - 0.1)` (decrement with
floor `0`), leaves the stored plane hypothesis unchanged, and in particular
(for the nonnegative confidences the engine maintains) does not increase the
confidence. -/
theorem estimatePlane_insufficient
    (tracked : List Corr) (good : List (ℚ × ℚ)) (conf : ℚ) (gp : Option Plane)
    (hlen : tracked.length < 8) (h0 : 0 ≤ conf) :
    (estimatePlane tracked good conf gp).found = false ∧
    (estimatePlane tracked good conf gp).conf = max 0 (conf - 1/10) ∧
    (estimatePlane tracked good conf gp).plane = gp ∧
    (estimatePlane tracked good conf gp).conf ≤ conf := by
  unfold estimatePlane
  rw [if_pos hlen]
  exact ⟨rfl, rfl, rfl, max_le h0 (by linarith)⟩

/-- Witness for C3 at 7 zero correspondences and confidence `1/4`. -/
theorem estimatePlane_insufficient_witness :
    (estimatePlane (List.replicate 7 ⟨0, 0, 0, 0⟩) goodOne (1/4) none).found = false ∧
    (estimatePlane (List.replicate 7 ⟨0, 0, 0, 0⟩) goodOne (1/4) none).conf = max 0 (1/4 - 1/10) ∧
    (estimatePlane (List.replicate 7 ⟨0, 0, 0, 0⟩) goodOne (1/4) none).plane = none ∧
    (estimatePlane (List.replicate 7 ⟨0, 0, 0, 0⟩) goodOne (1/4) none).conf ≤ 1/4 :=
  estimatePlane_insufficient (List.replicate 7 ⟨0, 0, 0, 0⟩) goodOne (1/4) none
    (by decide) (by norm_num)

/-- Claim C2: For every frame with at least 8 correspondences whose displacement
variance is below the coherence threshold `100`, `estimatePlane` increments
the confidence by `0.15` capped at `1`, stores a plane hypothesis whose center
is the centroid of the current feature positions (characterized by
`center * count = sum` together with `count ≠ 0`) and whose motion is the mean
displacement, and returns `true` (trackable) exactly when the new confidence
exceeds `0.5`. -/
theorem estimatePlane_coherent
    (tracked : List Corr) (good : List (ℚ × ℚ)) (conf : ℚ) (gp : Option Plane)
    (hlen : 8 ≤ tracked.length) (hvar : motionVariance tracked < 100)
    (hg : good ≠ []) :
    (estimatePlane tracked good conf gp).conf = min 1 (conf + 15/100) ∧
    (estimatePlane tracked good conf gp).found =
      decide (min 1 (conf + 15/100) > 1/2) ∧
    ∃ p : Plane,
      (estimatePlane tracked good conf gp).plane = some p ∧
      (good.length : ℚ) ≠ 0 ∧
      p.centerX * good.length = (good.map Prod.fst).sum ∧
      p.centerY * good.length = (good.map Prod.snd).sum ∧
      p.confidence = min 1 (conf + 15/100) ∧
      p.motionDX = avgDX tracked ∧ p.motionDY = avgDY tracked := by
  have hlen' : ¬ tracked.length < 8 := by omega
  have hg0 : good.length ≠ 0 := fun h => hg (List.length_eq_zero.mp h)
  have hg' : (good.length : ℚ) ≠ 0 := Nat.cast_ne_zero.mpr hg0
  unfold estimatePlane
  rw [if_neg hlen', if_pos hvar]
  refine ⟨rfl, rfl, _, rfl, hg', ?_, ?_, rfl, rfl, rfl⟩
  · unfold centroidX
    exact div_mul_cancel₀ _ hg'
  · unfold centroidY
    exact div_mul_cancel₀ _ hg'

/-- Witness for C2 at `tracked = coherent8` (variance `0`), `good = goodOne`,
`conf = 1/2`. -/
theorem estimatePlane_coherent_witness :
    (estimatePlane coherent8 goodOne (1/2) none).conf = min 1 (1/2 + 15/100) ∧
    (estimatePlane coherent8 goodOne (1/2) none).found =
      decide (min 1 ((1:ℚ)/2 + 15/100) > 1/2) ∧
    ∃ p : Plane,
      (estimatePlane coherent8 goodOne (1/2) none).plane = some p ∧
      (goodOne.length : ℚ) ≠ 0 ∧
      p.centerX * goodOne.length = (goodOne.map Prod.fst).sum ∧
      p.centerY * goodOne.length = (goodOne.map Prod.snd).sum ∧
      p.confidence = min 1 (1/2 + 15/100) ∧
      p.motionDX = avgDX coherent8 ∧ p.motionDY = avgDY coherent8 :=
  estimatePlane_coherent coherent8 goodOne (1/2) none
    (by decide)
    (by simp [motionVariance, coherent8, avgDX, avgDY, totalDX, totalDY])
    (by simp [goodOne])

/-- Claim C9: `reset` is idempotent: calling it twice in a row yields the same
cleared state (tracked point set, correspondences, plane hypothesis,
confidence, frame counter, pose and tracking flag all cleared) as calling it
once. -/
theorem reset_idempotent (s : EngineState) : reset (reset s) = reset s := rfl

/-- Claim C10: A `processFrame` call on an engine that has not been successfully
initialized returns the default result (tracking false, has-features false,
feature count 0, plane count 0, no pose, latest orientation sample echoed
back) and mutates no engine state. -/
theorem processFrame_not_initialized (s : EngineState) (inp : FrameInput)
    (h : s.initialized = false) :
    processFrame s inp = ⟨s, ⟨false, false, 0, 0, none, s.imu⟩, ⟨false, false⟩⟩ := by
  unfold processFrame
  rw [if_pos h]

/-- Witness for C10: a concrete never-initialized engine state. -/
theorem processFrame_not_initialized_witness :
    processFrame ⟨false, false, 0, 0, [], [], [], none, 0, none, ⟨0, 0, 0⟩⟩
        ⟨4, 3, [], fun _ => []⟩ =
      ⟨⟨false, false, 0, 0, [], [], [], none, 0, none, ⟨0, 0, 0⟩⟩,
       ⟨false, false, 0, 0, none, ⟨0, 0, 0⟩⟩, ⟨false, false⟩⟩ :=
  processFrame_not_initialized
    ⟨false, false, 0, 0, [], [], [], none, 0, none, ⟨0, 0, 0⟩⟩
    ⟨4, 3, [], fun _ => []⟩ rfl

/-- Claim C7: A `processFrame` call on a frame with zero width or zero height
returns immediately with the no-tracking/no-features result (tracking false,
has-features false, feature count 0, plane count 0) and mutates no persistent
engine state. -/
theorem processFrame_zero_dims (s : EngineState) (inp : FrameInput)
    (h : inp.width = 0 ∨ inp.height = 0) :
    processFrame s inp = ⟨s, ⟨false, false, 0, 0, none, s.imu⟩, ⟨false, false⟩⟩ := by
  unfold processFrame
  by_cases hinit : s.initialized = false
  · rw [if_pos hinit]
  · rw [if_neg hinit, if_pos h]

/-- Witness for C7: an initialized engine given a zero-width frame. -/
theorem processFrame_zero_dims_witness :
    processFrame ⟨true, false, 5, 3, [], [], [], none, 1/2, none, ⟨0, 0, 0⟩⟩
        ⟨0, 3, [], fun _ => []⟩ =
      ⟨⟨true, false, 5, 3, [], [], [], none, 1/2, none, ⟨0, 0, 0⟩⟩,
       ⟨false, false, 0, 0, none, ⟨0, 0, 0⟩⟩, ⟨false, false⟩⟩ :=
  processFrame_zero_dims
    ⟨true, false, 5, 3, [], [], [], none, 1/2, none, ⟨0, 0, 0⟩⟩
    ⟨0, 3, [], fun _ => []⟩ (Or.inl rfl)

/-- Claim C4: For every processed frame (engine initialized, non-zero frame
dimensions), feature re-detection is invoked exactly when the tracked-point
count is below the minimum feature threshold (15) or the frame counter of the
processed frame (the counter after its increment) is an exact multiple of the
refresh interval (15); otherwise it is not invoked. -/
theorem processFrame_redetect_iff (s : EngineState) (inp : FrameInput)
    (hinit : s.initialized = true) (hw : inp.width ≠ 0) (hh : inp.height ≠ 0) :
    (processFrame s inp).trace.ranDetect = true ↔
      (s.prevPoints.length < minFeatures ∨
        (s.frameCount + 1) % featureRefreshInterval = 0) := by
  have h1 : ¬ s.initialized = false := by simp [hinit]
  have h2 : ¬ (inp.width = 0 ∨ inp.height = 0) := by tauto
  unfold processFrame
  rw [if_neg h1, if_neg h2]
  simp only [apply_ite FrameOutput.trace, apply_ite FrameTrace.ranDetect,
    ite_self]
  simp

/-- Witness for C4: an initialized engine with an empty point set, so
re-detection triggers on the first processed frame. -/
theorem processFrame_redetect_iff_witness :
    (processFrame ⟨true, false, 0, 0, [], [], [], none, 0, none, ⟨0, 0, 0⟩⟩
        ⟨2, 2, [], fun _ => []⟩).trace.ranDetect = true ↔
      (([] : List (ℚ × ℚ)).length < minFeatures ∨
        (0 + 1) % featureRefreshInterval = 0) :=
  processFrame_redetect_iff
    ⟨true, false, 0, 0, [], [], [], none, 0, none, ⟨0, 0, 0⟩⟩
    ⟨2, 2, [], fun _ => []⟩ rfl (by decide) (by decide)

/-- Claim C6 counterexample: The claim says the motion-tracking step runs
whenever a previous grayscale frame exists and the previous tracked point set
is non-empty.  Here a previous frame exists and the previous point set has 8
points (non-empty); re-detection fires (8 < 15) and the detector returns the
same 8 points, which is still below `minFeatures`, so the tracking step is
skipped. -/
theorem processFrame_track_counterexample :
    0 < (⟨true, false, 0, 1, List.replicate 8 ((0 : ℚ), (0 : ℚ)), [], [], none,
          0, none, ⟨0, 0, 0⟩⟩ : EngineState).prevGrayRows ∧
    0 < (⟨true, false, 0, 1, List.replicate 8 ((0 : ℚ), (0 : ℚ)), [], [], none,
          0, none, ⟨0, 0, 0⟩⟩ : EngineState).prevPoints.length ∧
    (processFrame
        ⟨true, false, 0, 1, List.replicate 8 ((0 : ℚ), (0 : ℚ)), [], [], none,
          0, none, ⟨0, 0, 0⟩⟩
        ⟨2, 2, List.replicate 8 ((0 : ℚ), (0 : ℚ)), fun _ => []⟩).trace.ranTrack
      = false :=
  ⟨Nat.one_pos, by simp, rfl⟩

/-- Claim C6 amended: For every processed frame (engine initialized, non-zero
dimensions), the motion-tracking step (optical flow, filtering, correspondence
production) runs exactly when a previous grayscale frame exists and the point
set after the refresh decision (the freshly detected set when re-detection
triggered, the carried-over set otherwise) has at least `minFeatures` (15)
entries; otherwise the step is skipped. -/
theorem processFrame_track_iff (s : EngineState) (inp : FrameInput)
    (hinit : s.initialized = true) (hw : inp.width ≠ 0) (hh : inp.height ≠ 0) :
    (processFrame s inp).trace.ranTrack = true ↔
      (0 < s.prevGrayRows ∧
        minFeatures ≤ (if s.prevPoints.length < minFeatures ∨
            (s.frameCount + 1) % featureRefreshInterval = 0
          then inp.detect else s.prevPoints).length) := by
  have h1 : ¬ s.initialized = false := by simp [hinit]
  have h2 : ¬ (inp.width = 0 ∨ inp.height = 0) := by tauto
  unfold processFrame
  rw [if_neg h1, if_neg h2]
  simp only [apply_ite FrameOutput.trace, apply_ite FrameTrace.ranTrack,
    ite_self]
  simp

/-- Witness for the amended C6: with a previous frame and 15 carried-over
points, no refresh triggers and the tracking step runs. -/
theorem processFrame_track_iff_witness :
    (processFrame
        ⟨true, false, 0, 1, (List.range 15).map (fun i => ((i : ℚ), 0)), [],
          [], none, 0, none, ⟨0, 0, 0⟩⟩
        ⟨2, 2, [], fun _ => []⟩).trace.ranTrack = true ↔
      (0 < (1 : ℕ) ∧
        minFeatures ≤ (if ((List.range 15).map (fun i => ((i : ℚ), 0))).length
              < minFeatures ∨ (0 + 1) % featureRefreshInterval = 0
          then ([] : List (ℚ × ℚ))
          else (List.range 15).map (fun i => ((i : ℚ), 0))).length) :=
  processFrame_track_iff
    ⟨true, false, 0, 1, (List.range 15).map (fun i => ((i : ℚ), 0)), [],
      [], none, 0, none, ⟨0, 0, 0⟩⟩
    ⟨2, 2, [], fun _ => []⟩ rfl (by decide) (by decide)

/-- Claim C8 counterexample: The claim says that with no previous grayscale
frame and 0 tracked points the result has `hasFeatures = false` while the
feature count equals the detector count.  With a detector returning one point
the code sets `hasFeatures = (featureCount > 0) = true`. -/
theorem processFrame_scenarioA_counterexample :
    (⟨true, false, 0, 0, [], [], [], none, 0, none, ⟨0, 0, 0⟩⟩ :
        EngineState).prevGrayRows = 0 ∧
    (⟨true, false, 0, 0, [], [], [], none, 0, none, ⟨0, 0, 0⟩⟩ :
        EngineState).prevPoints = [] ∧
    (processFrame ⟨true, false, 0, 0, [], [], [], none, 0, none, ⟨0, 0, 0⟩⟩
        ⟨2, 2, [((0 : ℚ), (0 : ℚ))], fun _ => []⟩).result.hasFeatures = true :=
  ⟨rfl, rfl, rfl⟩

/-- Claim C8 amended: For every frame processed (engine initialized, non-zero
dimensions) with no previous grayscale frame stored and an empty tracked point
set, the result has `isTracking = false`, feature count equal to the number of
points the corner detector returned for that frame, and `hasFeatures` true
exactly when that number is positive (so `hasFeatures = false` precisely when
the detector finds none). -/
theorem processFrame_building_result (s : EngineState) (inp : FrameInput)
    (hinit : s.initialized = true) (hw : inp.width ≠ 0) (hh : inp.height ≠ 0)
    (hgray : s.prevGrayRows = 0) (hpts : s.prevPoints = []) :
    (processFrame s inp).result.isTracking = false ∧
    (processFrame s inp).result.featureCount = inp.detect.length ∧
    (processFrame s inp).result.hasFeatures = decide (0 < inp.detect.length) := by
  have h1 : ¬ s.initialized = false := by simp [hinit]
  have h2 : ¬ (inp.width = 0 ∨ inp.height = 0) := by tauto
  unfold processFrame
  rw [if_neg h1, if_neg h2]
  rw [if_neg (by simp [hgray])]
  refine ⟨rfl, ?_, ?_⟩ <;> simp [hpts, minFeatures]

/-- Witness for the amended C8: a first frame on which the detector finds
nothing. -/
theorem processFrame_building_result_witness :
    (processFrame ⟨true, false, 0, 0, [], [], [], none, 0, none, ⟨0, 0, 0⟩⟩
        ⟨2, 2, [], fun _ => []⟩).result.isTracking = false ∧
    (processFrame ⟨true, false, 0, 0, [], [], [], none, 0, none, ⟨0, 0, 0⟩⟩
        ⟨2, 2, [], fun _ => []⟩).result.featureCount =
      ([] : List (ℚ × ℚ)).length ∧
    (processFrame ⟨true, false, 0, 0, [], [], [], none, 0, none, ⟨0, 0, 0⟩⟩
        ⟨2, 2, [], fun _ => []⟩).result.hasFeatures =
      decide (0 < ([] : List (ℚ × ℚ)).length) :=
  processFrame_building_result
    ⟨true, false, 0, 0, [], [], [], none, 0, none, ⟨0, 0, 0⟩⟩
    ⟨2, 2, [], fun _ => []⟩ rfl (by decide) (by decide) rfl rfl

end AREngine
